import Mathlib

/-!
Verification of the rendezvous/IPC layer of `src/ipc/src/lib.rs`.

The Rust code is shallowly embedded: bytes are `Nat` (values `< 256` where
relevant), files are a byte list together with the shared read/write cursor
of a `std::fs::File`, and the environment (network, RNG, process spawning)
is an explicit oracle record.  All definitions are translated from the
source file; the few pieces whose definition lives outside `src/` (the
`core` module's `IPCPolicy`/`Context` and the external `memsec` crate) are
marked in their doc comments.
-/

/-- Cookies are used to authenticate clients (`struct Cookie(Vec<u8>)`). -/
structure Cookie where
  bytes : List Nat
deriving DecidableEq, Repr

/-- Fixed cookie size (`Cookie::SIZE = 32`). -/
def Cookie.SIZE : Nat := 32

/-- Spec name for the cookie length (`COOKIE_LEN = 32`). -/
def COOKIE_LEN : Nat := Cookie.SIZE

/-- Model of `Cookie::new()`: fill a 32-byte buffer from the OS RNG, which
is modelled as an oracle `rand` giving the byte at each index. -/
def Cookie.new (rand : Nat → Nat) : Cookie :=
  Cookie.mk ((List.range Cookie.SIZE).map (fun i => rand i % 256))

/-- Model of `Cookie::from(buf)`: succeeds exactly when the slice has
length `Cookie::SIZE`, copying the bytes.  (Named `fromBuf` because `from`
is reserved in Lean.) -/
def Cookie.fromBuf (buf : List Nat) : Option Cookie :=
  if buf.length = Cookie.SIZE then some (Cookie.mk buf) else none

/-- Model of `Cookie::extract(buf)`: if the buffer holds at least
`Cookie::SIZE` bytes, split it into the cookie and the rest
(`buf.split_off(SIZE)`). -/
def Cookie.extract (buf : List Nat) : Option (Cookie × List Nat) :=
  if Cookie.SIZE ≤ buf.length then
    some (Cookie.mk (buf.take Cookie.SIZE), buf.drop Cookie.SIZE)
  else none

/-- Model of `Cookie::receive(from)`: `read_exact` of `SIZE` bytes from the
reader, failing (with an unexpected-EOF error, modelled as `none`) when the
stream holds fewer bytes. -/
def Cookie.receive (input : List Nat) : Option Cookie :=
  if Cookie.SIZE ≤ input.length then some (Cookie.mk (input.take Cookie.SIZE))
  else none

/-- Model of `Cookie::receive_async(socket)`: `read_exact` of `SIZE` bytes
then `Cookie::from(&buf).expect(..)`. -/
def Cookie.receiveAsync (input : List Nat) : Option Cookie :=
  if Cookie.SIZE ≤ input.length then Cookie.fromBuf (input.take Cookie.SIZE)
  else none

/-- Model of `Cookie::send(to)`: writes exactly the cookie bytes. -/
def Cookie.sendBytes (c : Cookie) : List Nat :=
  c.bytes

/-- Modelled from the spec: the external `memsec::memeq(x, y, n)` primitive
(the crate is not part of this repository).  It accumulates the XOR of
every byte pair over all `n` positions with a running OR and compares the
accumulator to zero at the end; there is no data-dependent early exit. -/
def memeq (a b : List Nat) (n : Nat) : Bool :=
  ((List.range n).foldl (fun acc i => acc ||| ((a.getD i 0) ^^^ (b.getD i 0))) 0) == 0

/-- Instrumented variant of `memeq` that also counts the loop iterations
performed; used to state the absence of data-dependent early exits. -/
def memeqCount (a b : List Nat) (n : Nat) : Bool × Nat :=
  let p := (List.range n).foldl
    (fun (p : Nat × Nat) i => (p.1 ||| ((a.getD i 0) ^^^ (b.getD i 0)), p.2 + 1))
    (0, 0)
  (p.1 == 0, p.2)

/-- Model of `impl PartialEq for Cookie`: compare the (non-secret) lengths
first, then the bytes with `memsec::memeq`. -/
def Cookie.eq (x y : Cookie) : Bool :=
  (x.bytes.length == y.bytes.length) && memeq x.bytes y.bytes x.bytes.length

/-- Model of an open `CookieFile` handle: file content plus the shared
read/write cursor of the underlying `std::fs::File`. -/
structure CookieFile where
  content : List Nat
  offset : Nat
deriving DecidableEq, Repr

/-- Model of `CookieFile::open`: a freshly opened (and exclusively locked)
handle has its cursor at offset 0 over the current file content. -/
def CookieFile.openFile (content : List Nat) : CookieFile :=
  CookieFile.mk content 0

/-- Model of `File::rewind`: seek to offset 0. -/
def CookieFile.rewind (f : CookieFile) : CookieFile :=
  CookieFile.mk f.content 0

/-- Model of `File::set_len n`: truncate (or zero-extend) the content to
`n` bytes; the cursor is unchanged. -/
def CookieFile.setLen (f : CookieFile) (n : Nat) : CookieFile :=
  CookieFile.mk (f.content.take n ++ List.replicate (n - f.content.length) 0) f.offset

/-- Byte-level effect of `write_all` at a given cursor: overwrite in place,
zero-padding if the cursor is past the end of the file. -/
def writeAllAt (content : List Nat) (o : Nat) (b : List Nat) : List Nat :=
  content.take o ++ List.replicate (o - content.length) 0 ++ b
    ++ content.drop (o + b.length)

/-- Model of `File::write_all(b)`: write `b` at the cursor and advance the
cursor past it. -/
def CookieFile.writeAll (f : CookieFile) (b : List Nat) : CookieFile :=
  CookieFile.mk (writeAllAt f.content f.offset b) (f.offset + b.length)

/-- Model of `CookieFile::read`: `read_to_end` collects the bytes from the
current cursor to the end of the file (leaving the cursor at the end), and
the result is split with `Cookie::extract`. -/
def CookieFile.read (f : CookieFile) : Option (Cookie × List Nat) × CookieFile :=
  (Cookie.extract (f.content.drop f.offset), CookieFile.mk f.content f.content.length)

/-- Model of `CookieFile::write(cookie, data)`: rewind to offset 0,
truncate to length 0, then write the cookie bytes followed by `data`. -/
def CookieFile.write (f : CookieFile) (cookie : Cookie) (data : List Nat) : CookieFile :=
  (((f.rewind).setLen 0).writeAll cookie.bytes).writeAll data

/-- Model of `CookieFile::clear`: truncate to length 0 (the cursor is not
moved). -/
def CookieFile.clear (f : CookieFile) : CookieFile :=
  f.setLen 0

/-- Modelled from the spec: the three-valued launch policy enum
`core::IPCPolicy` (its definition lives in the `core` module, which is not
under `src/`); the variants `Internal`, `External` and `Robust` are exactly
the ones matched on by `Descriptor::connect_with_policy`. -/
inductive IPCPolicy where
  | Internal
  | External
  | Robust
deriving DecidableEq, Repr

/-- A loopback socket address `127.0.0.1:<port>`; only the kernel-assigned
port varies. -/
structure SockAddr where
  port : Nat
deriving DecidableEq, Repr

/-- UTF-8 bytes of the canonical text of a loopback address, as produced by
`format!("{}", addr)` in `connect_with_policy` and `bootstrap`. -/
def SockAddr.text (a : SockAddr) : List Nat :=
  (("127.0.0.1:" ++ toString a.port).toList).map Char.toNat

/-- Oracle for the effectful environment surrounding the connect protocol:
OS randomness, address parsing of the trailing rendezvous bytes
(`String::from_utf8` + `parse::<SocketAddr>`), TCP connect and cookie-send
success per address, the locally bound listener address, and whether the
child-process spawn syscall succeeds. -/
structure Env where
  randByte : Nat → Nat
  parseRest : List Nat → Option SockAddr
  tcpConnect : SockAddr → Bool
  sendOk : SockAddr → Bool
  localAddr : Option SockAddr
  forkOk : Bool

/-- Model of `Descriptor`: the rendezvous identity of a service.  The
`core::Context` fields it carries (home, lib, ephemeral flag, IPC policy,
whose struct lives outside `src/`) are flattened into the record, matching
the accessors `ctx.home()`, `ctx.lib()`, `ctx.ephemeral()` and
`ctx.ipc_policy()` used by `lib.rs`. -/
structure Descriptor where
  executable : String
  home : String
  lib : String
  ephemeral : Bool
  ctxPolicy : IPCPolicy
deriving DecidableEq, Repr

/-- Model of the child argv built by `Descriptor::fork`: the executable
followed by the `.arg(..)` calls, in order. -/
def Descriptor.forkArgv (d : Descriptor) : List String :=
  [d.executable,
   "--home", d.home,
   "--lib", d.lib,
   "--ephemeral", if d.ephemeral then "true" else "false",
   "--socket", "0"]

/-- The context assembled by `Server::context` on success (the `core`
`Context` builder itself lives outside `src/`; only the fields set by the
parser are modelled). -/
structure ServerCtx where
  home : String
  lib : String
  ephemeral : Bool
deriving DecidableEq, Repr

/-- Rust `str::parse::<bool>`: accepts exactly "true" and "false". -/
def parseRustBool (s : String) : Option Bool :=
  if s = "true" then some true
  else if s = "false" then some false
  else none

/-- The usage error message produced by `Server::context`. -/
def usageMsg (exe : String) : String :=
  "Usage: " ++ exe ++ " --home <HOMEDIR> --lib <LIBDIR> --ephemeral true|false"

/-- Model of `Server::context`: parses `env::args()`.  The short-circuit
`||` chain of the source is rendered as nested conditionals; any argv whose
length is not 7 or whose flag words are wrong is a usage error. -/
def Server.context (args : List String) : Except String ServerCtx :=
  if args.length ≠ 7 then Except.error (usageMsg (args.getD 0 ""))
  else if args.getD 1 "" ≠ "--home" then Except.error (usageMsg (args.getD 0 ""))
  else if args.getD 3 "" ≠ "--lib" then Except.error (usageMsg (args.getD 0 ""))
  else if args.getD 5 "" ≠ "--ephemeral" then Except.error (usageMsg (args.getD 0 ""))
  else
    match parseRustBool (args.getD 6 "") with
    | some e => Except.ok (ServerCtx.mk (args.getD 2 "") (args.getD 4 "") e)
    | none => Except.error
        ("Expected true or false for --ephemeral, got: " ++ args.getD 6 "")

/-- Observable outcome of one unfolding of `connect_with_policy`.  The
recursive restart `self.connect()` of the stale-record branch is reified as
`retry p` where `p` is the policy that restart will use. -/
inductive Outcome where
  | sessionExisting (cookie : Cookie) (addr : SockAddr)
  | sessionStarted (cookie : Cookie) (addr : SockAddr) (external : Bool)
  | retry (policy : IPCPolicy)
  | failure (msg : String)
deriving DecidableEq, Repr

/-- Model of `Descriptor::start(external)`: bind a fresh loopback listener
(`local_addr` may fail, modelled by `env.localAddr = none`), then either
fork a child (which can fail at the spawn syscall) or spawn an in-process
worker thread (which always yields a join handle).  The result is
`(address, external, has_join_handle)`. -/
def Descriptor.start (_d : Descriptor) (env : Env) (external : Bool) :
    Except String (SockAddr × Bool × Bool) :=
  match env.localAddr with
  | none => Except.error "local_addr failed"
  | some addr =>
    if external then
      if env.forkOk then Except.ok (addr, true, false)
      else Except.error "fork failed"
    else Except.ok (addr, false, true)

/-- The policy dispatch of `connect_with_policy` (lines 196-201 of the
source): `Internal` and `External` call the corresponding launcher;
`Robust` tries the external launcher and falls back to the in-process one
with `or_else`. -/
def Descriptor.startPolicy (d : Descriptor) (env : Env) (policy : IPCPolicy) :
    Except String (SockAddr × Bool × Bool) :=
  match policy with
  | IPCPolicy.Internal => d.start env false
  | IPCPolicy.External => d.start env true
  | IPCPolicy.Robust =>
    match d.start env true with
    | Except.ok r => Except.ok r
    | Except.error _ => d.start env false

/-- Model of `Descriptor::connect_with_policy`: open (and lock) the
rendezvous file, try the recorded endpoint, and otherwise start a server
per the policy, send the cookie on a throwaway init connection, register
the record when the server is external, release the lock and connect.  The
function returns the observable outcome together with the rendezvous file
content after the handle is dropped. -/
def Descriptor.connectWithPolicy (d : Descriptor) (env : Env) (policy : IPCPolicy)
    (content : List Nat) : Outcome × List Nat :=
  let file := CookieFile.openFile content
  let r := file.read
  let file1 := r.2
  match r.1 with
  | some (cookie, rest) =>
    match env.parseRest rest with
    | some addr =>
      if env.tcpConnect addr then
        if env.sendOk addr then (Outcome.sessionExisting cookie addr, file1.content)
        else (Outcome.failure "send failed", file1.content)
      else (Outcome.retry d.ctxPolicy, (file1.clear).content)
    | none => (Outcome.retry d.ctxPolicy, (file1.clear).content)
  | none =>
    let cookie := Cookie.new env.randByte
    match d.startPolicy env policy with
    | Except.error e => (Outcome.failure e, file1.content)
    | Except.ok (addr, external, _hasJoin) =>
      if env.tcpConnect addr then
        if env.sendOk addr then
          let file2 := if external then file1.write cookie addr.text else file1
          if env.tcpConnect addr then
            if env.sendOk addr then
              (Outcome.sessionStarted cookie addr external, file2.content)
            else (Outcome.failure "send failed", file2.content)
          else (Outcome.failure "connect failed", file2.content)
        else (Outcome.failure "send failed", file1.content)
      else (Outcome.failure "connect failed", file1.content)

/-- The liveness probe of `bootstrap`: the rendezvous record is live when
the file splits into a cookie and trailing bytes, the trailing bytes parse
as a socket address, a TCP connect to it succeeds, and sending the stored
cookie on that connection succeeds. -/
def liveProbe (env : Env) (content : List Nat) : Bool :=
  match Cookie.extract content with
  | none => false
  | some (_, rest) =>
    match env.parseRest rest with
    | none => false
    | some addr => env.tcpConnect addr && env.sendOk addr

/-- The fall-through tail of `bootstrap`: create a fresh cookie, start an
in-process server, write `(cookie, address_text)` into the rendezvous file,
release the lock, connect and send the cookie, and return the worker's join
handle. -/
def Descriptor.bootstrapStart (d : Descriptor) (env : Env) (file1 : CookieFile) :
    Except String (Option Unit) × List Nat :=
  let cookie := Cookie.new env.randByte
  match d.start env false with
  | Except.error e => (Except.error e, file1.content)
  | Except.ok (addr, _external, _hasJoin) =>
    let file2 := file1.write cookie addr.text
    if env.tcpConnect addr then
      if env.sendOk addr then (Except.ok (some ()), file2.content)
      else (Except.error "send failed", file2.content)
    else (Except.error "connect failed", file2.content)

/-- Model of `Descriptor::bootstrap`: if the rendezvous file already points
at a live server, return `Ok(None)`; otherwise register this process as an
in-process server and return its join handle (modelled as `some ()`). -/
def Descriptor.bootstrap (d : Descriptor) (env : Env) (content : List Nat) :
    Except String (Option Unit) × List Nat :=
  let file := CookieFile.openFile content
  let r := file.read
  let file1 := r.2
  match r.1 with
  | some (_cookie, rest) =>
    match env.parseRest rest with
    | some addr =>
      if env.tcpConnect addr then
        if env.sendOk addr then (Except.ok none, file1.content)
        else d.bootstrapStart env file1
      else d.bootstrapStart env file1
    | none => d.bootstrapStart env file1
  | none => d.bootstrapStart env file1

/-- Events offered to the server's accept loop: either an accepted
connection delivering the given byte stream, or a listener-level accept
error. -/
inductive AcceptEvent where
  | conn (bytes : List Nat)
  | acceptError (msg : String)
deriving DecidableEq, Repr

/-- Model of the accept loop of `Server::serve_listener` after the
expected cookie has been latched: a listener-level accept error terminates
the loop (returning the error message); a connection whose cookie read
fails or whose cookie differs from the expected one is dropped and the loop
continues; matching connections are handed (minus the cookie bytes) to the
RPC handler.  The result is the list of handled streams, and `some msg`
when the loop terminated on a listener error. -/
def serveLoop (expected : Cookie) : List AcceptEvent → List (List Nat) × Option String
  | [] => ([], none)
  | AcceptEvent.acceptError e :: _ => ([], some e)
  | AcceptEvent.conn b :: rest =>
    match Cookie.receiveAsync b with
    | none => serveLoop expected rest
    | some c =>
      if Cookie.eq c expected then
        let r := serveLoop expected rest
        (b.drop Cookie.SIZE :: r.1, r.2)
      else serveLoop expected rest

/-- Model of `Server::serve_listener`: the first accepted connection's
first 32 bytes latch the expected cookie (a short read there is a fatal
error); the loop then serves the remaining events. -/
def Server.serveListener (first : List Nat) (events : List AcceptEvent) :
    Except String (List (List Nat) × Option String) :=
  match Cookie.receive first with
  | none => Except.error "failed to read cookie"
  | some expected => Except.ok (serveLoop expected events)

/-- A fixed all-zero cookie used in concrete instantiations. -/
def cookie0 : Cookie :=
  Cookie.mk (List.replicate 32 0)

/-- A fixed loopback address used in concrete instantiations. -/
def addr5 : SockAddr :=
  SockAddr.mk 5

/-- A fixed descriptor whose context policy is `Internal`. -/
def d0 : Descriptor :=
  Descriptor.mk "srv" "/h" "/l" false IPCPolicy.Internal

/-- A stale-record byte content: a 32-byte cookie followed by one byte of
trailing text that will not parse as an address. -/
def content0 : List Nat :=
  List.replicate 32 0 ++ [49]

/-- A live-record byte content: a 32-byte cookie followed by the text of
`addr5`. -/
def contentLive : List Nat :=
  List.replicate 32 7 ++ addr5.text

/-- An environment where nothing parses, nothing connects and no launcher
works. -/
def env0 : Env :=
  Env.mk (fun _ => 0) (fun _ => none) (fun _ => false) (fun _ => false) none false

/-- An environment where the network and both launchers work, but no
rendezvous record parses. -/
def envOk : Env :=
  Env.mk (fun _ => 0) (fun _ => none) (fun _ => true) (fun _ => true) (some addr5) true

/-- An environment where the network works and the text of `addr5` parses
back to `addr5`. -/
def envLive : Env :=
  Env.mk (fun _ => 0) (fun r => if r = addr5.text then some addr5 else none)
    (fun _ => true) (fun _ => true) (some addr5) true

/-- An environment where the network works but the child-process spawn
syscall fails. -/
def envForkFail : Env :=
  Env.mk (fun _ => 0) (fun _ => none) (fun _ => true) (fun _ => true) (some addr5) false

theorem lor_eq_zero_iff (a b : Nat) : a ||| b = 0 ↔ a = 0 ∧ b = 0 := by
  constructor
  · intro h
    have hb : ∀ i, (a ||| b).testBit i = false := by
      intro i
      rw [h]
      exact Nat.zero_testBit i
    constructor
    · apply Nat.zero_of_testBit_eq_false
      intro i
      have hx := hb i
      rw [Nat.testBit_lor] at hx
      exact (Bool.or_eq_false_iff.mp hx).1
    · apply Nat.zero_of_testBit_eq_false
      intro i
      have hx := hb i
      rw [Nat.testBit_lor] at hx
      exact (Bool.or_eq_false_iff.mp hx).2
  · rintro ⟨rfl, rfl⟩
    rfl

theorem memeq_fold_succ (a b : List Nat) (n : Nat) :
    (List.range (n + 1)).foldl (fun acc i => acc ||| ((a.getD i 0) ^^^ (b.getD i 0))) 0
      = ((List.range n).foldl (fun acc i => acc ||| ((a.getD i 0) ^^^ (b.getD i 0))) 0)
        ||| ((a.getD n 0) ^^^ (b.getD n 0)) := by
  rw [List.range_succ, List.foldl_append]
  rfl

theorem memeq_true_iff (a b : List Nat) (n : Nat) :
    memeq a b n = true ↔ ∀ i, i < n → a.getD i 0 = b.getD i 0 := by
  induction n with
  | zero => simp [memeq]
  | succ n ih =>
    simp only [memeq, beq_iff_eq] at *
    rw [memeq_fold_succ, lor_eq_zero_iff, Nat.xor_eq_zero, ih]
    constructor
    · rintro ⟨h1, h2⟩ i hi
      rcases Nat.lt_succ_iff_lt_or_eq.mp hi with h | rfl
      · exact h1 i h
      · exact h2
    · intro h
      exact ⟨fun i hi => h i (Nat.lt_succ_of_lt hi), h n (Nat.lt_succ_self n)⟩

theorem getD_zero_eq_getElem (l : List Nat) (i : Nat) (h : i < l.length) :
    l.getD i 0 = l[i] := by
  simp [List.getD_eq_getElem?_getD, List.getElem?_eq_getElem h]

theorem cookie_eq_iff (x y : Cookie) : Cookie.eq x y = true ↔ x.bytes = y.bytes := by
  unfold Cookie.eq
  rw [Bool.and_eq_true, beq_iff_eq, memeq_true_iff]
  constructor
  · rintro ⟨hlen, hbytes⟩
    apply List.ext_getElem hlen
    intro i h1 h2
    have := hbytes i h1
    rwa [getD_zero_eq_getElem x.bytes i h1, getD_zero_eq_getElem y.bytes i h2] at this
  · intro h
    rw [h]
    exact ⟨rfl, fun i _ => rfl⟩

theorem memeqCount_foldl (a b : List Nat) :
    ∀ (l : List Nat) (acc k : Nat),
      l.foldl (fun (p : Nat × Nat) i => (p.1 ||| ((a.getD i 0) ^^^ (b.getD i 0)), p.2 + 1)) (acc, k)
        = (l.foldl (fun acc i => acc ||| ((a.getD i 0) ^^^ (b.getD i 0))) acc, k + l.length)
  | [], acc, k => by simp
  | i :: l, acc, k => by
    rw [List.foldl_cons, List.foldl_cons, memeqCount_foldl a b l]
    simp [Nat.add_comm, Nat.add_assoc, Nat.add_left_comm]

theorem memeqCount_eq (a b : List Nat) (n : Nat) :
    memeqCount a b n = (memeq a b n, n) := by
  unfold memeqCount memeq
  rw [memeqCount_foldl]
  simp

theorem fromBuf_length {buf : List Nat} {c : Cookie}
    (h : Cookie.fromBuf buf = some c) : c.bytes.length = Cookie.SIZE := by
  unfold Cookie.fromBuf at h
  split at h
  · next hlen =>
    cases h
    exact hlen
  · cases h

theorem take_SIZE_length {buf : List Nat} (h : Cookie.SIZE ≤ buf.length) :
    (buf.take Cookie.SIZE).length = Cookie.SIZE := by
  rw [List.length_take]
  exact Nat.min_eq_left h

theorem write_eq (f : CookieFile) (c : Cookie) (a : List Nat) :
    f.write c a = CookieFile.mk (c.bytes ++ a) (c.bytes.length + a.length) := by
  unfold CookieFile.write CookieFile.rewind CookieFile.setLen CookieFile.writeAll writeAllAt
  simp [List.drop_eq_nil_of_le, Nat.le_add_right]

/-- C8: Cookie equality (`PartialEq::eq`) returns true iff the byte
contents are equal, comparing the lengths first and then the bytes with
`memsec::memeq`; the instrumented comparison shows the byte loop performs
exactly `n` iterations for every input, i.e. it has no data-dependent early
exit over equal-length (or any) inputs. -/
theorem cookie_eq_constant_time :
    (∀ x y : Cookie, Cookie.eq x y = true ↔ x.bytes = y.bytes)
    ∧ (∀ a b n, memeqCount a b n = (memeq a b n, n)) :=
  ⟨cookie_eq_iff, memeqCount_eq⟩

/-- C9: every constructor of `Cookie` in the module — `new`, `from` (on
success), `extract` (on success), `receive`, `receive_async` — produces a
cookie holding exactly `COOKIE_LEN = 32` bytes. -/
theorem cookie_length_invariant :
    (∀ rand, (Cookie.new rand).bytes.length = COOKIE_LEN)
    ∧ (∀ buf c, Cookie.fromBuf buf = some c → c.bytes.length = COOKIE_LEN)
    ∧ (∀ buf c r, Cookie.extract buf = some (c, r) → c.bytes.length = COOKIE_LEN)
    ∧ (∀ input c, Cookie.receive input = some c → c.bytes.length = COOKIE_LEN)
    ∧ (∀ input c, Cookie.receiveAsync input = some c → c.bytes.length = COOKIE_LEN) := by
  refine ⟨?_, ?_, ?_, ?_, ?_⟩
  · intro rand
    simp [Cookie.new, COOKIE_LEN]
  · intro buf c h
    exact fromBuf_length h
  · intro buf c r h
    unfold Cookie.extract at h
    split at h
    · next hlen =>
      cases h
      exact take_SIZE_length hlen
    · cases h
  · intro input c h
    unfold Cookie.receive at h
    split at h
    · next hlen =>
      cases h
      exact take_SIZE_length hlen
    · cases h
  · intro input c h
    unfold Cookie.receiveAsync at h
    split at h
    · exact fromBuf_length h
    · cases h

/-- C9 witness: concrete cookies built by `new` and `from` have 32 bytes. -/
theorem cookie_length_invariant_witness :
    (Cookie.new (fun _ => 0)).bytes.length = COOKIE_LEN
    ∧ (Cookie.mk (List.replicate 32 1)).bytes.length = COOKIE_LEN :=
  ⟨cookie_length_invariant.1 (fun _ => 0),
   cookie_length_invariant.2.1 (List.replicate 32 1) (Cookie.mk (List.replicate 32 1))
     (by decide)⟩

/-- C10: `CookieFile::read` is not repeatable on the same open handle: a
first successful read leaves the cursor at the end of the file, so a second
read on the same handle collects no bytes and returns `None`. -/
theorem read_not_repeatable :
    ∀ (f : CookieFile) (c : Cookie) (rest : List Nat),
      (f.read).1 = some (c, rest) →
      ((f.read).2).offset = f.content.length ∧ (((f.read).2).read).1 = none := by
  intro f c rest _h
  refine ⟨rfl, ?_⟩
  show Cookie.extract (f.content.drop f.content.length) = none
  rw [List.drop_length]
  rfl

/-- C10 witness: on a handle over a 33-byte file the first read succeeds
and the second read returns `None`. -/
theorem read_not_repeatable_witness :
    ((CookieFile.openFile content0).read).2.offset = content0.length
    ∧ ((((CookieFile.openFile content0).read).2).read).1 = none :=
  read_not_repeatable (CookieFile.openFile content0) cookie0 [49] (by decide)

/-- C1 counterexample: writing the all-zero cookie and the byte string
`"1"` on a fresh handle and then reading on the same handle does not return
the written pair (it returns `None`, because `read` resumes at the cursor
`write` left at the end of the file). -/
theorem write_read_same_handle_cex :
    (((CookieFile.openFile []).write cookie0 [49]).read).1 ≠ some (cookie0, [49]) := by
  decide

/-- C1 (amended): after `write(c, a)` the file content is exactly the
cookie bytes followed by `a` — so a read from offset 0 (e.g. on a freshly
opened handle) recovers `Some((c, a))` — but a `read()` on the same open
handle returns `None`, since it resumes from the cursor `write` left at the
end of the file. -/
theorem write_then_read_amended :
    ∀ (f : CookieFile) (c : Cookie) (a : List Nat),
      c.bytes.length = COOKIE_LEN →
      ((f.write c a).read).1 = none
      ∧ Cookie.extract ((f.write c a).content) = some (c, a) := by
  intro f c a hlen
  have hlen' : c.bytes.length = Cookie.SIZE := hlen
  rw [write_eq]
  constructor
  · show Cookie.extract ((c.bytes ++ a).drop (c.bytes.length + a.length)) = none
    rw [List.drop_eq_nil_of_le (by rw [List.length_append])]
    rfl
  · show Cookie.extract (c.bytes ++ a) = some (c, a)
    unfold Cookie.extract
    rw [if_pos (by rw [List.length_append, hlen']; exact Nat.le_add_right _ _)]
    rw [List.take_left' hlen', List.drop_left' hlen']

/-- C1 witness: the amended statement at the all-zero cookie and trailing
byte string `"1"`. -/
theorem write_then_read_amended_witness :
    (((CookieFile.openFile []).write cookie0 [49]).read).1 = none
    ∧ Cookie.extract (((CookieFile.openFile []).write cookie0 [49]).content)
      = some (cookie0, [49]) :=
  write_then_read_amended (CookieFile.openFile []) cookie0 [49] (by decide)

/-- C2 (code bug): the child argv built by `Descriptor::fork` has nine
entries — it appends `--socket 0` after the ephemeral flag — while
`Server::context` rejects every argv whose length is not seven with a usage
error.  Hence the launcher's own invocation is rejected by the server's
argv parser, for every descriptor. -/
theorem fork_argv_rejected_by_server_context :
    ∀ d : Descriptor,
      d.forkArgv.length = 9
      ∧ Server.context d.forkArgv = Except.error (usageMsg d.executable) := by
  intro d
  exact ⟨rfl, rfl⟩

/-- The seven-entry shape claimed by the spec is indeed the one
`Server::context` accepts: this is the nearby accepted argv, showing the
parser side of C2 behaves as specified. -/
theorem seven_entry_argv_accepted :
    ∀ (exe h l : String),
      Server.context [exe, "--home", h, "--lib", l, "--ephemeral", "true"]
        = Except.ok (ServerCtx.mk h l true) := by
  intro exe h l
  rfl

theorem clear_content (f : CookieFile) : (f.clear).content = [] := by
  unfold CookieFile.clear CookieFile.setLen
  simp

/-- C3 counterexample: with a context whose policy is `Internal`, calling
`connect_with_policy(External)` on a stale record restarts (via
`self.connect()`) with the *context's* policy `Internal`, not with the
given policy `External`. -/
theorem stale_retry_policy_cex :
    (Descriptor.connectWithPolicy d0 env0 IPCPolicy.External content0).1
      = Outcome.retry IPCPolicy.Internal
    ∧ Outcome.retry IPCPolicy.Internal ≠ Outcome.retry IPCPolicy.External := by
  decide

/-- C3 (amended): when the record's trailing bytes do not parse as a socket
address or the parsed address refuses the TCP connect, the rendezvous file
is cleared, the lock is released, and the protocol restarts from step 1 —
but via `connect()`, i.e. using the context's IPC policy `d.ctxPolicy`,
which coincides with the given policy `p` only when the two are equal. -/
theorem stale_record_clears_and_retries :
    ∀ (d : Descriptor) (env : Env) (p : IPCPolicy) (content : List Nat)
      (c : Cookie) (rest : List Nat),
      Cookie.extract content = some (c, rest) →
      (∀ a, env.parseRest rest = some a → env.tcpConnect a = false) →
      Descriptor.connectWithPolicy d env p content = (Outcome.retry d.ctxPolicy, []) := by
  intro d env p content c rest hex hfail
  unfold Descriptor.connectWithPolicy
  simp only [CookieFile.openFile, CookieFile.read, List.drop_zero, hex]
  cases hp : env.parseRest rest with
  | none => simp [clear_content]
  | some a =>
    have hc := hfail a hp
    simp [hc, clear_content]

/-- C3 witness: the amended statement at a concrete stale record. -/
theorem stale_record_clears_and_retries_witness :
    Descriptor.connectWithPolicy d0 env0 IPCPolicy.External content0
      = (Outcome.retry IPCPolicy.Internal, []) :=
  stale_record_clears_and_retries d0 env0 IPCPolicy.External content0
    cookie0 [49] (by decide) (by intro a h; simp [env0] at h)

/-- C7: under the `Robust` policy the external launcher is tried first; if
it returns an error, that error is swallowed and the in-process launcher's
result is returned instead (so an error surfaces only if the in-process
start also fails), and the whole of `connect_with_policy` under `Robust`
behaves as under `Internal`. -/
theorem robust_falls_back :
    ∀ (d : Descriptor) (env : Env),
      (∃ e, d.start env true = Except.error e) →
      d.startPolicy env IPCPolicy.Robust = d.start env false
      ∧ ∀ content, d.connectWithPolicy env IPCPolicy.Robust content
          = d.connectWithPolicy env IPCPolicy.Internal content := by
  intro d env ⟨e, he⟩
  have hsp : d.startPolicy env IPCPolicy.Robust = d.start env false := by
    unfold Descriptor.startPolicy
    rw [he]
  refine ⟨hsp, ?_⟩
  intro content
  have hsp' : d.startPolicy env IPCPolicy.Robust
      = d.startPolicy env IPCPolicy.Internal := hsp
  unfold Descriptor.connectWithPolicy
  rw [hsp']

/-- C7 witness: with a working network but a failing spawn syscall, the
fallback is exercised at concrete inputs. -/
theorem robust_falls_back_witness :
    d0.startPolicy envForkFail IPCPolicy.Robust = d0.start envForkFail false
    ∧ d0.connectWithPolicy envForkFail IPCPolicy.Robust []
        = d0.connectWithPolicy envForkFail IPCPolicy.Internal [] :=
  ⟨(robust_falls_back d0 envForkFail ⟨"fork failed", rfl⟩).1,
   (robust_falls_back d0 envForkFail ⟨"fork failed", rfl⟩).2 []⟩

theorem start_false_shape (d : Descriptor) (env : Env) :
    d.start env false = (match env.localAddr with
      | none => Except.error "local_addr failed"
      | some addr => Except.ok (addr, false, true)) := by
  unfold Descriptor.start
  cases env.localAddr <;> rfl

theorem start_false_external {d : Descriptor} {env : Env} {a : SockAddr}
    {ext hj : Bool} (h : d.start env false = Except.ok (a, ext, hj)) :
    ext = false := by
  rw [start_false_shape] at h
  cases hl : env.localAddr with
  | none =>
    rw [hl] at h
    cases h
  | some addr =>
    rw [hl] at h
    cases h
    rfl


/-- C4: whenever `connect_with_policy` ends up starting a server (the
rendezvous was empty), the final rendezvous content is the record
`cookie ++ address_text` exactly when the launched server is external, and
is the untouched original content otherwise; under the `Internal` policy
the launched server is never external, so a cold start over an empty
rendezvous leaves the file empty. -/
theorem record_written_iff_external :
    ∀ (d : Descriptor) (env : Env) (p : IPCPolicy) (content : List Nat)
      (c : Cookie) (addr : SockAddr) (ext : Bool) (final : List Nat),
      Descriptor.connectWithPolicy d env p content
        = (Outcome.sessionStarted c addr ext, final) →
      final = (if ext then c.bytes ++ addr.text else content)
      ∧ (p = IPCPolicy.Internal → ext = false ∧ final = content) := by
  intro d env p content c addr ext final h
  unfold Descriptor.connectWithPolicy at h
  simp only [CookieFile.openFile, CookieFile.read] at h
  split at h
  · split at h
    · split at h
      · split at h
        · simp at h
        · simp at h
      · simp at h
    · simp at h
  · split at h
    · simp at h
    · next a' ext' hj' hstart =>
      split at h
      · split at h
        · split at h
          · next hx =>
            simp only [Prod.mk.injEq, Outcome.sessionStarted.injEq] at h
            obtain ⟨⟨hc, ha, he⟩, hf⟩ := h
            subst hc
            subst ha
            subst he
            subst hf
            subst hx
            constructor
            · rw [write_eq]
              simp
            · intro hp
              subst hp
              unfold Descriptor.startPolicy at hstart
              exact absurd (start_false_external hstart) (by decide)
          · next hx =>
            simp only [Bool.not_eq_true] at hx
            simp only [Prod.mk.injEq, Outcome.sessionStarted.injEq] at h
            obtain ⟨⟨hc, ha, he⟩, hf⟩ := h
            subst hc
            subst ha
            subst he
            subst hf
            subst hx
            simp
        · simp at h
      · simp at h

/-- C4 witness: a cold start under `Internal` over an empty rendezvous
yields a non-external session and leaves the file empty. -/
theorem record_written_iff_external_witness :
    ([] : List Nat)
      = (if false then (Cookie.new envOk.randByte).bytes ++ addr5.text else ([] : List Nat))
    ∧ (IPCPolicy.Internal = IPCPolicy.Internal → false = false ∧ ([] : List Nat) = []) :=
  record_written_iff_external d0 envOk IPCPolicy.Internal []
    (Cookie.new envOk.randByte) addr5 false [] (by decide)

theorem bootstrapStart_ok (d : Descriptor) (env : Env) (file1 : CookieFile)
    (addr : SockAddr) (hl : env.localAddr = some addr)
    (hc : env.tcpConnect addr = true) (hs : env.sendOk addr = true) :
    d.bootstrapStart env file1
      = (Except.ok (some ()), (Cookie.new env.randByte).bytes ++ addr.text) := by
  unfold Descriptor.bootstrapStart
  rw [start_false_shape, hl]
  simp only [hc, hs, if_true, write_eq]

/-- C5: under an environment where the freshly bound listener address is
reachable, `bootstrap` returns `Ok(None)` ("already running") exactly when
the rendezvous record is live — the file splits into a cookie and trailing
bytes, the trailing bytes parse as a socket address, the TCP connect to it
succeeds and sending the stored cookie succeeds; otherwise it starts an
in-process server, writes the fresh `(cookie, address_text)` record into
the rendezvous file, sends the cookie, and returns the worker's join
handle. -/
theorem bootstrap_spec :
    ∀ (d : Descriptor) (env : Env) (content : List Nat) (addr : SockAddr),
      env.localAddr = some addr →
      env.tcpConnect addr = true →
      env.sendOk addr = true →
      ((d.bootstrap env content).1 = Except.ok none ↔ liveProbe env content = true)
      ∧ (liveProbe env content = false →
          d.bootstrap env content
            = (Except.ok (some ()), (Cookie.new env.randByte).bytes ++ addr.text)) := by
  intro d env content addr hl hc hs
  have hbs : ∀ file1 : CookieFile, d.bootstrapStart env file1
      = (Except.ok (some ()), (Cookie.new env.randByte).bytes ++ addr.text) :=
    fun file1 => bootstrapStart_ok d env file1 addr hl hc hs
  unfold Descriptor.bootstrap liveProbe
  simp only [CookieFile.openFile, CookieFile.read, List.drop_zero]
  cases hx : Cookie.extract content with
  | none => simp [hbs]
  | some pr =>
    obtain ⟨ck, rest⟩ := pr
    cases hp : env.parseRest rest with
    | none => simp [hbs, hp]
    | some a =>
      cases hca : env.tcpConnect a <;> cases hsa : env.sendOk a <;>
        simp [hbs, hp, hca, hsa]

/-- C5 witness: over a stale record whose trailing byte does not parse,
`bootstrap` registers a fresh in-process server. -/
theorem bootstrap_spec_witness :
    ((d0.bootstrap envLive content0).1 = Except.ok none
        ↔ liveProbe envLive content0 = true)
    ∧ (liveProbe envLive content0 = false →
        d0.bootstrap envLive content0
          = (Except.ok (some ()), (Cookie.new envLive.randByte).bytes ++ addr5.text)) :=
  bootstrap_spec d0 envLive content0 addr5 rfl rfl rfl

/-- C6: in the accept loop, a connection whose cookie read fails or whose
received cookie differs from the expected cookie (under `PartialEq`, i.e.
`Cookie.eq`) is dropped and the loop continues unchanged; the loop
terminates with an error exactly when a listener-level accept error occurs
among the events — per-connection failures alone never terminate it. -/
theorem serve_loop_drops_and_survives :
    (∀ (expected : Cookie) (b : List Nat) (evs : List AcceptEvent),
        (Cookie.receiveAsync b = none
          ∨ ∃ c, Cookie.receiveAsync b = some c ∧ Cookie.eq c expected = false) →
        serveLoop expected (AcceptEvent.conn b :: evs) = serveLoop expected evs)
    ∧ (∀ (expected : Cookie) (evs : List AcceptEvent),
        (serveLoop expected evs).2 = none ↔ ∀ m, AcceptEvent.acceptError m ∉ evs) := by
  constructor
  · intro expected b evs hdrop
    rcases hdrop with hnone | ⟨c, hsome, hne⟩
    · simp only [serveLoop]
      rw [hnone]
    · simp only [serveLoop]
      rw [hsome]
      simp [hne]
  · intro expected evs
    induction evs with
    | nil => simp [serveLoop]
    | cons ev tl ih =>
      cases ev with
      | acceptError e =>
        constructor
        · intro hcontra
          simp [serveLoop] at hcontra
        · intro hall
          exact ((hall e) (List.mem_cons_self _ _)).elim
      | conn b =>
        have h2 : (serveLoop expected (AcceptEvent.conn b :: tl)).2
            = (serveLoop expected tl).2 := by
          simp only [serveLoop]
          cases hr : Cookie.receiveAsync b with
          | none => rfl
          | some c =>
            by_cases hq : Cookie.eq c expected = true
            · simp [hq]
            · simp [hq]
        rw [h2, ih]
        constructor
        · intro hall m hm
          rcases List.mem_cons.mp hm with heq | hmem
          · cases heq
          · exact hall m hmem
        · intro hall m hm
          exact hall m (List.mem_cons_of_mem _ hm)

/-- C6 witness: a connection whose cookie read fails (empty stream) is
dropped and the loop continues. -/
theorem serve_loop_drops_witness :
    serveLoop cookie0 (AcceptEvent.conn [] :: []) = serveLoop cookie0 [] :=
  serve_loop_drops_and_survives.1 cookie0 [] [] (Or.inl (by decide))
